import Mathlib

/-!
Account core of `server.js`: signup, signin and federated signin

A shallow embedding of the three authentication routes of `src/server.js`
(`/signup`, `/signin`, `/google-auth`) together with the helpers they use
(`emailRegex`, `passwordRegex`, `formatDatatoSend`, `generateUsername`).

* JavaScript strings are sequences of UTF-16 code units (`JSString`).
* Regular expression literals are translated constructor by constructor into `Re`
  and run by `matchRe`, which returns every position at which a match can end.
* The external collaborators (bcrypt, jsonwebtoken, nanoid, firebase, the
  mongoose model `User`) are inputs of a run, gathered in `Env`.
* A run of a route handler yields a `Run`: the store afterwards, the responses
  written to the client, and the calls made to the collaborators, in order.
-/

namespace Server

/-! ## JavaScript strings -/

/-- A JavaScript string: its UTF-16 code units. `s.length` is the JavaScript `length`. -/
abbrev JSString := List Nat

/-- UTF-16 code units of one Unicode scalar value. -/
def utf16Units (c : Char) : List Nat :=
  if c.toNat < 65536 then [c.toNat]
  else [55296 + (c.toNat - 65536) / 1024, 56320 + (c.toNat - 65536) % 1024]

/-- The JavaScript string denoted by a string literal. -/
def js (s : String) : JSString :=
  s.toList.flatMap utf16Units

/-- `s.split(sep)` for a separator of one code unit: the pieces between separators. -/
def split (sep : Nat) : JSString → List JSString
  | [] => [[]]
  | c :: cs =>
    if c = sep then [] :: split sep cs
    else
      match split sep cs with
      | [] => [[c]]
      | p :: ps => (c :: p) :: ps

/-- `s.substring(0, k)`. -/
def substring0 (s : JSString) (k : Nat) : JSString :=
  s.take k

/-! ## Regular expressions -/

/-- The pattern constructs that occur in the two regular expression literals. -/
inductive Re where
  /-- The assertion `^` (no `m` flag: start of input only). -/
  | bol : Re
  /-- The assertion `$` (no `m` flag: end of input only). -/
  | eol : Re
  /-- One code unit of a class: `.`, `\w`, `\d`, `[a-z]`, `@`, ... -/
  | cls : (Nat → Bool) → Re
  /-- The empty pattern. -/
  | eps : Re
  /-- Concatenation. -/
  | seq : Re → Re → Re
  /-- Quantifier `r{lo,hi}`; `hi = none` is unbounded (`*` is `{0,}`, `+` is `{1,}`). -/
  | rep : Re → Nat → Option Nat → Re
  /-- Positive lookahead `(?=r)`. -/
  | look : Re → Re

/-- Concatenation of a sequence of terms. -/
def Re.cat : List Re → Re
  | [] => Re.eps
  | r :: rs => Re.seq r (Re.cat rs)

/-- Line terminators: the code units that `.` does not match. -/
def isLineTerminator (c : Nat) : Bool :=
  c == 10 || c == 13 || c == 8232 || c == 8233

/-- The class `.` (no `s` flag). -/
def isDot (c : Nat) : Bool := !isLineTerminator c

/-- The class `\d`. -/
def isDigit (c : Nat) : Bool := decide (48 ≤ c) && decide (c ≤ 57)

/-- The class `[a-z]`. -/
def isLower (c : Nat) : Bool := decide (97 ≤ c) && decide (c ≤ 122)

/-- The class `[A-Z]`. -/
def isUpper (c : Nat) : Bool := decide (65 ≤ c) && decide (c ≤ 90)

/-- The class `\w`: `[A-Za-z0-9_]`. -/
def isWord (c : Nat) : Bool := isLower c || isUpper c || isDigit c || c == 95

/-- The class `[\.-]`. -/
def isDotOrDash (c : Nat) : Bool := c == 46 || c == 45

/-- Optional part of a quantifier loop over the matcher `f` of the quantified term:
at most `extra` further iterations. An iteration that consumes nothing is rejected,
as in the ECMAScript RepeatMatcher (`min = 0` and the end index did not move). -/
def repeatOpt (f : JSString → List JSString) : Nat → JSString → List JSString
  | 0, s => [s]
  | e + 1, s => ((f s).filter (fun t => t.length != s.length)).flatMap (repeatOpt f e) ++ [s]

/-- Quantifier loop: `lo` iterations that must happen, then at most `extra` further
ones. -/
def repeatM (f : JSString → List JSString) : Nat → Nat → JSString → List JSString
  | 0, e, s => repeatOpt f e s
  | l + 1, e, s => (f s).flatMap (repeatM f l e)

/-- All ways the pattern can match at the start of `s`, each given by the input left
after the match (greedy choices first). `n` is the length of the whole input, so that
a remainder of length `n` is the start of the input. An unbounded quantifier is given as
many optional iterations as there are units left, since each of them has to consume one. -/
def matchRe (n : Nat) : Re → JSString → List JSString
  | Re.bol => fun s => if s.length = n then [s] else []
  | Re.eol => fun s => if s.length = 0 then [s] else []
  | Re.cls p => fun s =>
    match s with
    | [] => []
    | c :: t => if p c then [t] else []
  | Re.eps => fun s => [s]
  | Re.seq a b => fun s => (matchRe n a s).flatMap (matchRe n b)
  | Re.rep r lo hi => fun s =>
    match hi with
    | some h => if h < lo then [] else repeatM (matchRe n r) lo (h - lo) s
    | none => repeatM (matchRe n r) lo s.length s
  | Re.look r => fun s => if (matchRe n r s).isEmpty then [] else [s]

/-- The method `re.test(s)` of a pattern without flags: is there a start index at
which the pattern matches. -/
def Re.test (re : Re) (s : JSString) : Bool :=
  (List.range (s.length + 1)).any (fun i => !(matchRe s.length re (s.drop i)).isEmpty)

/-- Source: `/^\w+([\.-]?\w+)*@\w+([\.-]?\w+)*(\.\w{2,3})+$/`. -/
def emailRegex : Re :=
  Re.cat [
    Re.bol,
    Re.rep (Re.cls isWord) 1 none,
    Re.rep (Re.cat [Re.rep (Re.cls isDotOrDash) 0 (some 1), Re.rep (Re.cls isWord) 1 none]) 0 none,
    Re.cls (fun c => c == 64),
    Re.rep (Re.cls isWord) 1 none,
    Re.rep (Re.cat [Re.rep (Re.cls isDotOrDash) 0 (some 1), Re.rep (Re.cls isWord) 1 none]) 0 none,
    Re.rep (Re.cat [Re.cls (fun c => c == 46), Re.rep (Re.cls isWord) 2 (some 3)]) 1 none,
    Re.eol]

/-- Source: `/^(?=.*\d)(?=.*[a-z])(?=.*[A-Z]).{6,20}$/`. -/
def passwordRegex : Re :=
  Re.cat [
    Re.bol,
    Re.look (Re.cat [Re.rep (Re.cls isDot) 0 none, Re.cls isDigit]),
    Re.look (Re.cat [Re.rep (Re.cls isDot) 0 none, Re.cls isLower]),
    Re.look (Re.cat [Re.rep (Re.cls isDot) 0 none, Re.cls isUpper]),
    Re.rep (Re.cls isDot) 6 (some 20),
    Re.eol]

/-- Does `s` start with `pat`. -/
def startsWith (pat : JSString) (s : JSString) : Bool :=
  s.take pat.length == pat

/-- `s.replace(pat, rep)` for a string pattern: the first occurrence is replaced. -/
def replaceFirst (pat rep : JSString) : JSString → JSString
  | [] => if pat.isEmpty then rep else []
  | c :: cs =>
    if startsWith pat (c :: cs) then rep ++ (c :: cs).drop pat.length
    else c :: replaceFirst pat rep cs

/-! ## Documents of the `User` model -/

/-- The sub-document `personal_info`, with the fields the routes write and read. -/
structure PersonalInfo where
  fullname : JSString
  email : JSString
  password : Option JSString
  username : JSString
  profile_img : Option JSString
  deriving DecidableEq, Repr

/-- A document of the `User` collection. -/
structure User where
  _id : Nat
  personal_info : PersonalInfo
  google_auth : Bool
  deriving DecidableEq, Repr

/-- Modelled from the spec: the default of `google_auth` in `./Schema/User.js`, which is
not among the sources. The spec has password signup construct the account with the
federated flag false. -/
def defaultGoogleAuth : Bool := false

/-- Modelled from the spec: the default of `personal_info.profile_img` in
`./Schema/User.js`, which is not among the sources. The spec has the profile image
default to none for password accounts. -/
def defaultProfileImg : Option JSString := none

/-- Modelled from the spec: the string-valued paths of the schema of `./Schema/User.js`,
which is not among the sources: the fields of the Account of the spec, under the names the
routes store them with. -/
def schemaPaths : List String :=
  ["personal_info.fullname", "personal_info.email", "personal_info.password",
   "personal_info.username", "personal_info.profile_img"]

/-- The string stored in a document under a dotted path, if any. -/
def User.getPath (u : User) (path : String) : Option JSString :=
  if path = "personal_info.fullname" then some u.personal_info.fullname
  else if path = "personal_info.email" then some u.personal_info.email
  else if path = "personal_info.password" then u.personal_info.password
  else if path = "personal_info.username" then some u.personal_info.username
  else if path = "personal_info.profile_img" then u.personal_info.profile_img
  else none

/-- A query filter with one condition, `{ path: value }`. -/
structure Filter where
  path : String
  value : JSString
  deriving DecidableEq, Repr

/-- Does a document satisfy the filter. A document has to hold the value under the path.
With mongoose's `strictQuery` on, a condition on a path that the schema does not have is
dropped before the query is sent, and the empty filter is satisfied by every document. -/
def Filter.matches (strictQuery : Bool) (f : Filter) (u : User) : Bool :=
  if strictQuery && !(schemaPaths.contains f.path) then true
  else u.getPath f.path == some f.value

/-- An error raised by a store call: `err.code` and `err.message`. -/
structure StoreError where
  code : Option Nat
  message : String
  deriving DecidableEq, Repr

/-! ## External collaborators -/

/-- The claims of a verified identity token that the route reads. -/
structure DecodedUser where
  email : JSString
  name : JSString
  picture : JSString
  deriving DecidableEq, Repr

/-- What the collaborators answer during one request. -/
structure Env where
  /-- Result of `bcrypt.hash(password, 10)`. -/
  bcryptHash : JSString → JSString
  /-- Result of `bcrypt.compare(password, hash)` on two strings. -/
  bcryptCompare : JSString → JSString → Bool
  /-- Result of `jwt.sign({ id }, SECRET_ACCESS_KEY)`. -/
  jwtSign : Nat → JSString
  /-- Result of `nanoid()`. -/
  nanoid : JSString
  /-- Result of `getAuth().verifyIdToken(token)`; `none` when the promise rejects. -/
  verifyIdToken : JSString → Option DecodedUser
  /-- The `_id` that `new User(...)` gives the document. -/
  newId : Nat
  /-- The `strictQuery` option of mongoose (its default differs between versions). -/
  strictQuery : Bool
  /-- A failure of `User.findOne`, with its message. -/
  findOneError : Option String
  /-- A failure of `User.exists`, with its message. -/
  existsError : Option String
  /-- A failure of `save` other than the uniqueness of the email. -/
  saveError : Option StoreError

/-- `User.findOne(filter)` on a store that answers: the first document that satisfies the
filter. -/
def findOne (strictQuery : Bool) (f : Filter) (store : List User) : Option User :=
  store.find? (f.matches strictQuery)

/-- Modelled from the spec: `insert` of the Account Store (`save` of the mongoose model of
`./Schema/User.js`, which is not among the sources). It fails with the duplicate key
error, code 11000, when an account with the email exists, and otherwise adds the
document and returns it. -/
def insert (doc : User) (store : List User) : Except StoreError (User × List User) :=
  if store.any (fun u => u.personal_info.email == doc.personal_info.email) then
    Except.error { code := some 11000, message := "E11000 duplicate key error" }
  else Except.ok (doc, store ++ [doc])

/-- The call `user.save()`: an outside failure, or the insert. -/
def save (env : Env) (doc : User) (store : List User) : Except StoreError (User × List User) :=
  match env.saveError with
  | some err => Except.error err
  | none => insert doc store

/-- The call `bcrypt.compare(data, hash, cb)`: an error when the hash is missing,
otherwise the verdict. -/
def bcryptCompare (env : Env) (data : JSString) (hash : Option JSString) : Except String Bool :=
  match hash with
  | none => Except.error "data and hash arguments required"
  | some h => Except.ok (env.bcryptCompare data h)

/-! ## Responses and runs -/

/-- The object built by `formatDatatoSend`. -/
structure SessionView where
  access_token : JSString
  profile_img : Option JSString
  username : JSString
  fullname : JSString
  deriving DecidableEq, Repr

/-- The JSON body of a response. -/
inductive Body where
  /-- A JSON string. -/
  | text : String → Body
  /-- The object `{ error: ... }`. -/
  | error : String → Body
  /-- The object of `formatDatatoSend`. -/
  | session : SessionView → Body
  deriving DecidableEq, Repr

/-- A response written to the client. -/
structure Response where
  status : Nat
  body : Body
  deriving DecidableEq, Repr

/-- A call to a collaborator. -/
inductive Call where
  | bcryptHash : JSString → Call
  | bcryptCompare : JSString → Option JSString → Call
  | jwtSign : Nat → Call
  | nanoid : Call
  | verifyIdToken : JSString → Call
  | findOne : Filter → Call
  | existsDoc : Filter → Call
  | save : User → Call
  deriving DecidableEq, Repr

/-- The state of the handling of one request. -/
structure Run where
  /-- The accounts in the store. -/
  store : List User
  /-- The responses written to the client, in order. -/
  sent : List Response
  /-- The calls made to the collaborators, in order. -/
  calls : List Call
  /-- An exception escaped every handler (an unhandled rejection). -/
  unhandled : Bool
  deriving DecidableEq, Repr

/-- The start of a request. -/
def Run.start (store : List User) : Run :=
  { store := store, sent := [], calls := [], unhandled := false }

/-- Record a call. -/
def Run.call (r : Run) (c : Call) : Run :=
  { r with calls := r.calls ++ [c] }

/-- The statement `res.status(status).json(body)`: writes the response, and throws when
a response has been written already (`ERR_HTTP_HEADERS_SENT`). -/
def Run.json (r : Run) (status : Nat) (body : Body) : Except Run Run :=
  if r.sent.isEmpty then Except.ok { r with sent := r.sent ++ [{ status := status, body := body }] }
  else Except.error r

/-- The end of a chain with no handler left: what is thrown is an unhandled rejection. -/
def finish : Except Run Run → Run
  | Except.ok r => r
  | Except.error r => { r with unhandled := true }

/-! ## The helpers and the routes -/

/-- Source: `formatDatatoSend`, lines 60-71. -/
def formatDatatoSend (env : Env) (user : User) (r : Run) : SessionView × Run :=
  let access_token := env.jwtSign user._id
  ({ access_token := access_token,
     profile_img := user.personal_info.profile_img,
     username := user.personal_info.username,
     fullname := user.personal_info.fullname },
   r.call (Call.jwtSign user._id))

/-- The filter of `generateUsername`, line 76: the path is spelled `personnal_info`. -/
def usernameFilter (username : JSString) : Filter :=
  { path := "personnal_info.username", value := username }

/-- Source: `generateUsername`, lines 72-82. The error case is the rejection of
`User.exists`. -/
def generateUsername (env : Env) (email : JSString) (r : Run) : Except Run (JSString × Run) :=
  let username := (split 64 email).headD []
  let r1 := r.call (Call.existsDoc (usernameFilter username))
  match env.existsError with
  | some _ => Except.error r1
  | none =>
    let isUsernameNotUnique := (findOne env.strictQuery (usernameFilter username) r1.store).isSome
    if isUsernameNotUnique then
      Except.ok (username ++ substring0 env.nanoid 5, r1.call Call.nanoid)
    else Except.ok (username, r1)

/-- The body of a `/signup` request. -/
structure SignupBody where
  fullname : JSString
  email : JSString
  password : JSString
  deriving DecidableEq, Repr

/-- Source: `server.post("/signup")`, lines 95-141. -/
def signup (env : Env) (body : SignupBody) (store : List User) : Run :=
  let r0 := Run.start store
  if body.fullname.length < 3 then
    finish (r0.json 403 (Body.text "error: fullname must be 3 letters long"))
  else if body.email.length = 0 then
    finish (r0.json 403 (Body.text "error: email is required"))
  else if !emailRegex.test body.email then
    finish (r0.json 403 (Body.text "error: invalid email"))
  else if !passwordRegex.test body.password then
    finish (r0.json 403 (Body.text
      "error: password should be at least 6 to 20  characters long with a numeric, 1 lower and 1 uppercase letter"))
  else
    let hashed_password := env.bcryptHash body.password
    let r1 := r0.call (Call.bcryptHash body.password)
    match generateUsername env body.email r1 with
    | Except.error r2 => { r2 with unhandled := true }
    | Except.ok (username, r2) =>
      let user : User :=
        { _id := env.newId,
          personal_info :=
            { fullname := body.fullname,
              email := body.email,
              password := some hashed_password,
              username := username,
              profile_img := defaultProfileImg },
          google_auth := defaultGoogleAuth }
      let r3 := r2.call (Call.save user)
      match save env user r3.store with
      | Except.ok (u, store1) =>
        let (view, r4) := formatDatatoSend env u { r3 with store := store1 }
        finish (r4.json 200 (Body.session view))
      | Except.error err =>
        if err.code = some 11000 then
          finish (r3.json 500 (Body.text "error: email already exists"))
        else r3

/-- The body of a `/signin` request. -/
structure SigninBody where
  email : JSString
  password : JSString
  deriving DecidableEq, Repr

/-- The filter `{ "personal_info.email": email }` of both signin routes. -/
def emailFilter (email : JSString) : Filter :=
  { path := "personal_info.email", value := email }

/-- Source: `server.post("/signin")`, lines 143-175. -/
def signin (env : Env) (body : SigninBody) (store : List User) : Run :=
  let r0 := Run.start store
  let r1 := r0.call (Call.findOne (emailFilter body.email))
  match env.findOneError with
  | some msg => finish (r1.json 403 (Body.text msg))
  | none =>
    match findOne env.strictQuery (emailFilter body.email) r1.store with
    | none => finish (r1.json 403 (Body.text "error: email not found"))
    | some user =>
      if !user.google_auth then
        let r2 := r1.call (Call.bcryptCompare body.password user.personal_info.password)
        match bcryptCompare env body.password user.personal_info.password with
        | Except.error msg => finish (r2.json 403 (Body.text msg))
        | Except.ok result =>
          if !result then finish (r2.json 403 (Body.text "error: invalid password"))
          else
            let (view, r3) := formatDatatoSend env user r2
            finish (r3.json 200 (Body.session view))
      else
        finish (r1.json 403 (Body.text
          "error: Account was created using google. try logging in with google."))

/-- The body of a `/google-auth` request. -/
structure GoogleAuthBody where
  access_token : JSString
  deriving DecidableEq, Repr

/-- The value of the variable `user` of `/google-auth` after the lookup of line 187: a
document, `null`, or the response object that the handler of a failed lookup returns. -/
inductive Looked where
  | doc : User → Looked
  | null : Looked
  | res : Looked
  deriving DecidableEq, Repr

/-- The message of the 403 of `/google-auth`. -/
def withoutGoogleMessage : String :=
  "this email was signed up without google. Please log in with password to access the account."

/-- The message of the last handler of `/google-auth`. -/
def googleFailedMessage : String :=
  "error : failed to authenticate you with google. Try with some other google account."

/-- Source: the callback of `verifyIdToken(...).then`, lines 182-229. The error case is
an exception thrown in the callback, which the handler of line 230 receives. The
projection of line 188 keeps every field read afterwards, and is left out. -/
def googleAuthVerified (env : Env) (decodedUser : DecodedUser) (r : Run) : Except Run Run :=
  let email := decodedUser.email
  let name := decodedUser.name
  let picture := replaceFirst (js "s96-c") (js "s384-c") decodedUser.picture
  let r1 := r.call (Call.findOne (emailFilter email))
  let looked : Except Run (Looked × Run) :=
    match env.findOneError with
    | some msg =>
      match r1.json 500 (Body.text msg) with
      | Except.ok r2 => Except.ok (Looked.res, r2)
      | Except.error r2 => Except.error r2
    | none =>
      match findOne env.strictQuery (emailFilter email) r1.store with
      | some u => Except.ok (Looked.doc u, r1)
      | none => Except.ok (Looked.null, r1)
  match looked with
  | Except.error r2 => Except.error r2
  | Except.ok (Looked.res, r2) =>
    -- the response object is truthy and has no `google_auth`
    r2.json 403 (Body.error withoutGoogleMessage)
  | Except.ok (Looked.doc user, r2) =>
    if !user.google_auth then r2.json 403 (Body.error withoutGoogleMessage)
    else
      let (view, r3) := formatDatatoSend env user r2
      r3.json 200 (Body.session view)
  | Except.ok (Looked.null, r2) =>
    match generateUsername env email r2 with
    | Except.error r3 => Except.error r3
    | Except.ok (username, r3) =>
      let user : User :=
        { _id := env.newId,
          personal_info :=
            { fullname := name,
              email := email,
              password := none,
              username := username,
              profile_img := some picture },
          google_auth := true }
      let r4 := r3.call (Call.save user)
      match save env user r4.store with
      | Except.ok (u, store1) =>
        let (view, r5) := formatDatatoSend env u { r4 with store := store1 }
        r5.json 200 (Body.session view)
      | Except.error err =>
        match r4.json 500 (Body.text err.message) with
        | Except.error r5 => Except.error r5
        | Except.ok r5 =>
          -- the handler of line 223 returns to line 228 with `user` the unsaved document
          let (view, r6) := formatDatatoSend env user r5
          r6.json 200 (Body.session view)

/-- Source: `server.post("/google-auth")`, lines 177-237. -/
def googleAuth (env : Env) (body : GoogleAuthBody) (store : List User) : Run :=
  let r0 := Run.start store
  let r1 := r0.call (Call.verifyIdToken body.access_token)
  match env.verifyIdToken body.access_token with
  | none => finish (r1.json 500 (Body.text googleFailedMessage))
  | some decodedUser =>
    match googleAuthVerified env decodedUser r1 with
    | Except.ok r2 => r2
    | Except.error r2 => finish (r2.json 500 (Body.text googleFailedMessage))

/-! ## A sample environment -/

/-- A token that the sample verifier accepts. -/
def sampleToken : JSString := js "id-token"

/-- Collaborators that answer without failure: a toy hash, a toy signature. -/
def sampleEnv : Env :=
  { bcryptHash := fun p => 36 :: p,
    bcryptCompare := fun p h => h == 36 :: p,
    jwtSign := fun id => [106, 119, 116, 46, id],
    nanoid := js "V1StGXR8_Z5jdHi6B-myT",
    verifyIdToken := fun t =>
      if t = sampleToken then
        some { email := js "a@x.com", name := js "Ann", picture := js "https://g/s96-c/p" }
      else none,
    newId := 7,
    strictQuery := false,
    findOneError := none,
    existsError := none,
    saveError := none }

/-- An account stored by password signup, with username `a`. -/
def sampleAccount : User :=
  { _id := 1,
    personal_info :=
      { fullname := js "Ann Lee",
        email := js "a@y.org",
        password := some (36 :: js "Aa1bcd"),
        username := js "a",
        profile_img := none },
    google_auth := false }

/-- An account created by federated signin. -/
def sampleGoogleAccount : User :=
  { _id := 2,
    personal_info :=
      { fullname := js "Bob",
        email := js "b@x.com",
        password := none,
        username := js "b",
        profile_img := some (js "https://g/s384-c/q") },
    google_auth := true }

/-- A valid signup request. -/
def sampleSignup : SignupBody :=
  { fullname := js "Ann", email := js "a@x.com", password := js "Aa1bcd" }

/-- The sample environment with mongoose's `strictQuery` on. -/
def sampleStrictEnv : Env :=
  { sampleEnv with strictQuery := true }

/-- The sample environment with a store whose `save` fails (not a duplicate key). -/
def sampleSaveFailsEnv : Env :=
  { sampleEnv with saveError := some { code := none, message := "connection lost" } }

/-- The sample environment with a store whose `findOne` fails. -/
def sampleFindFailsEnv : Env :=
  { sampleEnv with findOneError := some "connection lost" }

/-- The claims that the sample verifier returns for the sample token. -/
def sampleDecoded : DecodedUser :=
  { email := js "a@x.com", name := js "Ann", picture := js "https://g/s96-c/p" }

/-! ## Descriptions of the results on the paths without failure -/

/-- The calls of `generateUsername`: the query, and `nanoid` when the query finds a
document. -/
def usernameCalls (env : Env) (email : JSString) (store : List User) : List Call :=
  Call.existsDoc (usernameFilter ((split 64 email).headD [])) ::
    (if (findOne env.strictQuery (usernameFilter ((split 64 email).headD [])) store).isSome
      then [Call.nanoid] else [])

/-- The name `generateUsername` returns when the query answers. -/
def usernameResult (env : Env) (email : JSString) (store : List User) : JSString :=
  if (findOne env.strictQuery (usernameFilter ((split 64 email).headD [])) store).isSome
    then (split 64 email).headD [] ++ substring0 env.nanoid 5
    else (split 64 email).headD []

/-- The document that `/google-auth` builds for a new account. -/
def googleDoc (env : Env) (d : DecodedUser) (store : List User) : User :=
  { _id := env.newId,
    personal_info :=
      { fullname := d.name,
        email := d.email,
        password := none,
        username := usernameResult env d.email store,
        profile_img := some (replaceFirst (js "s96-c") (js "s384-c") d.picture) },
    google_auth := true }

/-- The document that `/signup` builds. -/
def signupDoc (env : Env) (body : SignupBody) (store : List User) : User :=
  { _id := env.newId,
    personal_info :=
      { fullname := body.fullname,
        email := body.email,
        password := some (env.bcryptHash body.password),
        username := usernameResult env body.email store,
        profile_img := defaultProfileImg },
    google_auth := defaultGoogleAuth }

/-- The object of `formatDatatoSend` for a document. -/
def viewOf (env : Env) (u : User) : SessionView :=
  { access_token := env.jwtSign u._id,
    profile_img := u.personal_info.profile_img,
    username := u.personal_info.username,
    fullname := u.personal_info.fullname }

/-! ## Facts about the matcher -/

theorem mem_matchRe_seq (n : Nat) (a b : Re) (s t : JSString) :
    t ∈ matchRe n (Re.seq a b) s ↔ ∃ u, u ∈ matchRe n a s ∧ t ∈ matchRe n b u := by
  simp [matchRe, List.mem_flatMap]

theorem mem_matchRe_eps (n : Nat) (s t : JSString) :
    t ∈ matchRe n Re.eps s ↔ t = s := by
  simp [matchRe]

theorem mem_matchRe_eol (n : Nat) (s t : JSString) :
    t ∈ matchRe n Re.eol s ↔ t = s ∧ s = [] := by
  cases s <;> simp [matchRe]

theorem mem_matchRe_bol (n : Nat) (s t : JSString) :
    t ∈ matchRe n Re.bol s ↔ t = s ∧ s.length = n := by
  by_cases h : s.length = n <;> simp [matchRe, h]

theorem mem_matchRe_look (n : Nat) (r : Re) (s t : JSString) :
    t ∈ matchRe n (Re.look r) s ↔ t = s ∧ ∃ u, u ∈ matchRe n r s := by
  cases h : matchRe n r s <;> simp [matchRe, h]

theorem mem_matchRe_cls (n : Nat) (p : Nat → Bool) (s t : JSString) :
    t ∈ matchRe n (Re.cls p) s ↔ ∃ c, p c = true ∧ s = c :: t := by
  cases s with
  | nil => simp [matchRe]
  | cons c s' =>
    by_cases h : p c = true
    · simp only [matchRe, h, if_true, List.mem_singleton, List.cons.injEq]
      constructor
      · rintro rfl
        exact ⟨c, h, rfl, rfl⟩
      · rintro ⟨x, _, _, rfl⟩
        rfl
    · simp only [matchRe, h, List.cons.injEq]
      constructor
      · intro hx
        simp at hx
      · rintro ⟨x, hx, rfl, _⟩
        exact absurd hx h

theorem isEmpty_eq_false_iff (l : List JSString) :
    (!l.isEmpty) = true ↔ ∃ t, t ∈ l := by
  cases l <;> simp

/-- Optional part of a quantified class: the loop stops after any `k ≤ e` units of the
class. -/
theorem mem_repeatOpt_cls (f : JSString → List JSString) (p : Nat → Bool)
    (hf : ∀ s u, u ∈ f s ↔ ∃ c, p c = true ∧ s = c :: u) :
    ∀ (e : Nat) (s t : JSString),
      t ∈ repeatOpt f e s ↔
        ∃ k, k ≤ e ∧ k ≤ s.length ∧ (∀ c ∈ s.take k, p c = true) ∧ t = s.drop k := by
  intro e
  induction e with
  | zero =>
    intro s t
    simp [repeatOpt]
  | succ e ih =>
    intro s t
    simp only [repeatOpt, List.mem_append, List.mem_flatMap, List.mem_filter, hf, ih,
      List.mem_singleton]
    constructor
    · rintro (⟨u, ⟨⟨c, hc, rfl⟩, _⟩, k, hk, hk', hall, rfl⟩ | rfl)
      · refine ⟨k + 1, by omega, by simp; omega, ?_, by simp⟩
        intro x hx
        simp only [List.take_succ_cons, List.mem_cons] at hx
        rcases hx with rfl | hx
        · exact hc
        · exact hall x hx
      · exact ⟨0, by omega, by omega, by simp, by simp⟩
    · rintro ⟨k, hk, hk', hall, rfl⟩
      cases k with
      | zero => right; simp
      | succ k =>
        left
        cases s with
        | nil => simp at hk'
        | cons c s' =>
          refine ⟨s', ⟨⟨c, hall c (by simp [List.take_succ_cons]), rfl⟩, by simp⟩, k, by omega,
            by simp at hk'; omega, ?_, by simp⟩
          intro x hx
          exact hall x (by simp [List.take_succ_cons, hx])

/-- A quantified class `c{lo,lo+e}` matches exactly a run of `k` units of the class,
`lo ≤ k ≤ lo + e`. -/
theorem mem_repeatM_cls (f : JSString → List JSString) (p : Nat → Bool)
    (hf : ∀ s u, u ∈ f s ↔ ∃ c, p c = true ∧ s = c :: u) :
    ∀ (lo e : Nat) (s t : JSString),
      t ∈ repeatM f lo e s ↔
        ∃ k, lo ≤ k ∧ k ≤ lo + e ∧ k ≤ s.length ∧ (∀ c ∈ s.take k, p c = true) ∧
          t = s.drop k := by
  intro lo
  induction lo with
  | zero =>
    intro e s t
    simp [repeatM, mem_repeatOpt_cls f p hf]
  | succ lo ih =>
    intro e s t
    simp only [repeatM, List.mem_flatMap, hf, ih]
    constructor
    · rintro ⟨u, ⟨c, hc, rfl⟩, k, h1, h2, h3, hall, rfl⟩
      refine ⟨k + 1, by omega, by omega, by simp; omega, ?_, by simp⟩
      intro x hx
      simp only [List.take_succ_cons, List.mem_cons] at hx
      rcases hx with rfl | hx
      · exact hc
      · exact hall x hx
    · rintro ⟨k, h1, h2, h3, hall, rfl⟩
      cases s with
      | nil => simp at h3; omega
      | cons c s' =>
        cases k with
        | zero => omega
        | succ k =>
          refine ⟨s', ⟨c, hall c (by simp [List.take_succ_cons]), rfl⟩, k, by omega, by omega,
            by simp at h3; omega, ?_, by simp⟩
          intro x hx
          exact hall x (by simp [List.take_succ_cons, hx])

theorem matchRe_rep_none (n : Nat) (r : Re) (lo : Nat) (s : JSString) :
    matchRe n (Re.rep r lo none) s = repeatM (matchRe n r) lo s.length s := rfl

theorem matchRe_rep_some (n : Nat) (r : Re) (lo h : Nat) (s : JSString) :
    matchRe n (Re.rep r lo (some h)) s =
      if h < lo then [] else repeatM (matchRe n r) lo (h - lo) s := rfl

/-- Membership in the matches of a quantified class. -/
theorem mem_matchRe_rep_cls (n : Nat) (p : Nat → Bool) (lo : Nat) (hi : Option Nat)
    (s t : JSString) :
    t ∈ matchRe n (Re.rep (Re.cls p) lo hi) s ↔
      ∃ k, lo ≤ k ∧ (∀ h, hi = some h → k ≤ h) ∧ k ≤ s.length ∧
        (∀ c ∈ s.take k, p c = true) ∧ t = s.drop k := by
  cases hi with
  | none =>
    rw [matchRe_rep_none, mem_repeatM_cls _ p (mem_matchRe_cls n p)]
    constructor
    · rintro ⟨k, h1, _, h3, hall, rfl⟩
      exact ⟨k, h1, by simp, h3, hall, rfl⟩
    · rintro ⟨k, h1, _, h3, hall, rfl⟩
      exact ⟨k, h1, by omega, h3, hall, rfl⟩
  | some h =>
    by_cases hlt : h < lo
    · rw [matchRe_rep_some]
      simp only [hlt, if_true, List.not_mem_nil, false_iff]
      rintro ⟨k, h1, h2, _⟩
      have := h2 h rfl
      omega
    · rw [matchRe_rep_some]
      simp only [hlt, if_false]
      rw [mem_repeatM_cls _ p (mem_matchRe_cls n p)]
      constructor
      · rintro ⟨k, h1, h2, h3, hall, rfl⟩
        refine ⟨k, h1, ?_, h3, hall, rfl⟩
        intro h' hh
        cases hh
        omega
      · rintro ⟨k, h1, h2, h3, hall, rfl⟩
        have := h2 h rfl
        exact ⟨k, h1, by omega, h3, hall, rfl⟩

/-- A pattern that starts with `^` can only match at index 0. -/
theorem test_bol (rs : List Re) (s : JSString) :
    (Re.cat (Re.bol :: rs)).test s = !(matchRe s.length (Re.cat rs) s).isEmpty := by
  rw [Bool.eq_iff_iff]
  simp only [Re.test, List.any_eq_true, List.mem_range, isEmpty_eq_false_iff, Re.cat,
    mem_matchRe_seq, mem_matchRe_bol]
  constructor
  · rintro ⟨i, hi, t, u, ⟨rfl, hlen⟩, ht⟩
    have h0 : i = 0 := by
      simp only [List.length_drop] at hlen
      omega
    subst h0
    exact ⟨t, by simpa using ht⟩
  · rintro ⟨t, ht⟩
    exact ⟨0, by omega, t, s, ⟨by simp, by simp⟩, ht⟩

/-- The lookahead body `.*c` succeeds exactly when a unit of class `p` is reached from
the current position without crossing a line terminator. -/
theorem lookahead_dotStar_cls (n : Nat) (p : Nat → Bool) (s : JSString) :
    (∃ u, u ∈ matchRe n (Re.cat [Re.rep (Re.cls isDot) 0 none, Re.cls p]) s) ↔
      ∃ k c, s[k]? = some c ∧ p c = true ∧ ∀ d ∈ s.take k, isDot d = true := by
  simp only [Re.cat, mem_matchRe_seq, mem_matchRe_rep_cls, mem_matchRe_eps, mem_matchRe_cls]
  constructor
  · rintro ⟨u, v, ⟨k, _, _, hk, hall, rfl⟩, w, ⟨c, hc, hdrop⟩, rfl⟩
    refine ⟨k, c, ?_, hc, hall⟩
    have := congrArg List.head? hdrop
    simpa [List.head?_drop] using this
  · rintro ⟨k, c, hget, hc, hall⟩
    have hlt : k < s.length := by
      rcases Nat.lt_or_ge k s.length with h | h
      · exact h
      · have := List.getElem?_eq_none h
        simp [this] at hget
    refine ⟨s.drop (k + 1), s.drop k, ⟨k, by omega, by simp, by omega, hall, rfl⟩,
      s.drop (k + 1), ⟨c, hc, ?_⟩, rfl⟩
    rw [List.drop_eq_getElem_cons hlt]
    have : s[k] = c := by
      have h2 := List.getElem?_eq_getElem hlt
      rw [hget] at h2
      simpa using h2.symm
    rw [this]

/-- On an input without line terminators, the lookahead body `.*c` asks for a unit of
class `p` anywhere in the input. -/
theorem lookahead_of_allDot (n : Nat) (p : Nat → Bool) (s : JSString)
    (hdot : ∀ c ∈ s, isDot c = true) :
    (∃ u, u ∈ matchRe n (Re.cat [Re.rep (Re.cls isDot) 0 none, Re.cls p]) s) ↔
      ∃ c ∈ s, p c = true := by
  rw [lookahead_dotStar_cls]
  constructor
  · rintro ⟨k, c, hget, hc, _⟩
    exact ⟨c, List.getElem?_mem hget, hc⟩
  · rintro ⟨c, hmem, hc⟩
    obtain ⟨k, hk⟩ := List.mem_iff_getElem?.mp hmem
    exact ⟨k, c, hk, hc, fun d hd => hdot d (List.mem_of_mem_take hd)⟩

/-- C2, amended: for every string `p`, `passwordRegex.test(p)` accepts `p` if and only if
`p` has length between 6 and 20 inclusive, contains no line terminator (U+000A, U+000D,
U+2028, U+2029), and contains at least one digit `0-9`, one letter `a-z` and one letter
`A-Z`. -/
theorem passwordRegex_test_iff (p : JSString) :
    passwordRegex.test p = true ↔
      6 ≤ p.length ∧ p.length ≤ 20 ∧ (∀ c ∈ p, isLineTerminator c = false) ∧
        (∃ c ∈ p, isDigit c = true) ∧ (∃ c ∈ p, isLower c = true) ∧
        (∃ c ∈ p, isUpper c = true) := by
  unfold passwordRegex
  rw [test_bol, isEmpty_eq_false_iff]
  have hA := lookahead_of_allDot p.length isDigit p
  have hB := lookahead_of_allDot p.length isLower p
  have hC := lookahead_of_allDot p.length isUpper p
  generalize Re.cat [Re.rep (Re.cls isDot) 0 none, Re.cls isDigit] = A at hA ⊢
  generalize Re.cat [Re.rep (Re.cls isDot) 0 none, Re.cls isLower] = B at hB ⊢
  generalize Re.cat [Re.rep (Re.cls isDot) 0 none, Re.cls isUpper] = C at hC ⊢
  simp only [Re.cat, mem_matchRe_seq, mem_matchRe_look, mem_matchRe_rep_cls, mem_matchRe_eol,
    mem_matchRe_eps]
  constructor
  · rintro ⟨t, u1, ⟨rfl, ha⟩, u2, ⟨rfl, hb⟩, u3, ⟨rfl, hc⟩, u4, ⟨k, h6, h20, hk, hall, rfl⟩,
      u5, ⟨rfl, hnil⟩, rfl⟩
    have hlen : u3.length ≤ k := by
      have := congrArg List.length hnil
      simp only [List.length_drop, List.length_nil] at this
      omega
    have hk20 := h20 20 rfl
    have hdot : ∀ c ∈ u3, isDot c = true := by
      intro c hc
      apply hall
      rw [List.take_of_length_le hlen]
      exact hc
    refine ⟨by omega, by omega, ?_, (hA hdot).mp ha, (hB hdot).mp hb, (hC hdot).mp hc⟩
    intro c hc
    have := hdot c hc
    simpa [isDot] using this
  · rintro ⟨h6, h20, hlt, ha, hb, hc⟩
    have hdot : ∀ c ∈ p, isDot c = true := by
      intro c hc
      simp [isDot, hlt c hc]
    refine ⟨[], p, ⟨rfl, (hA hdot).mpr ha⟩, p, ⟨rfl, (hB hdot).mpr hb⟩, p,
      ⟨rfl, (hC hdot).mpr hc⟩, [], ⟨p.length, h6, ?_, le_refl _, ?_, by simp⟩, [], ⟨rfl, rfl⟩, rfl⟩
    · intro h hh
      cases hh
      exact h20
    · intro c hc
      exact hdot c (List.mem_of_mem_take hc)

/-! ## Facts about the store -/

theorem matches_emailFilter (sq : Bool) (e : JSString) (u : User) :
    (emailFilter e).matches sq u = (u.personal_info.email == e) := by
  have h : "personal_info.email" ∈ schemaPaths := by decide
  simp [Filter.matches, emailFilter, h, User.getPath]

theorem findOne_emailFilter (sq : Bool) (e : JSString) (store : List User) :
    findOne sq (emailFilter e) store = store.find? (fun a => a.personal_info.email == e) := by
  unfold findOne
  congr 1
  funext u
  exact matches_emailFilter sq e u

theorem find?_email_none (e : JSString) (store : List User)
    (h : ∀ a ∈ store, a.personal_info.email ≠ e) :
    store.find? (fun a => a.personal_info.email == e) = none := by
  rw [List.find?_eq_none]
  intro a ha
  simpa using h a ha

theorem find?_email_unique (store : List User) (u : User) (hu : u ∈ store)
    (huniq : store.Pairwise (fun a b => a.personal_info.email ≠ b.personal_info.email)) :
    store.find? (fun a => a.personal_info.email == u.personal_info.email) = some u := by
  induction store with
  | nil => simp at hu
  | cons a rest ih =>
    rw [List.pairwise_cons] at huniq
    rcases List.mem_cons.mp hu with rfl | hmem
    · simp
    · have hne : a.personal_info.email ≠ u.personal_info.email := huniq.1 u hmem
      rw [List.find?_cons_of_neg _ (by simpa using hne)]
      exact ih hmem huniq.2

theorem insert_fresh (doc : User) (store : List User)
    (h : ∀ a ∈ store, a.personal_info.email ≠ doc.personal_info.email) :
    insert doc store = Except.ok (doc, store ++ [doc]) := by
  unfold insert
  have : store.any (fun u => u.personal_info.email == doc.personal_info.email) = false := by
    rw [List.any_eq_false]
    intro a ha
    simpa using h a ha
  simp [this]

theorem generateUsername_ok (env : Env) (email : JSString) (r : Run)
    (h : env.existsError = none) :
    generateUsername env email r =
      Except.ok (usernameResult env email r.store,
        { r with calls := r.calls ++ usernameCalls env email r.store }) := by
  unfold generateUsername usernameResult usernameCalls
  simp only [h, Run.call]
  split <;> simp

theorem generateUsername_error (env : Env) (email : JSString) (r : Run) (msg : String)
    (h : env.existsError = some msg) :
    generateUsername env email r =
      Except.error (r.call (Call.existsDoc (usernameFilter ((split 64 email).headD [])))) := by
  unfold generateUsername
  simp only [h]

theorem find?_email_append (e : JSString) (store : List User) (u : User)
    (h : ∀ a ∈ store, a.personal_info.email ≠ e) (hu : u.personal_info.email = e) :
    (store ++ [u]).find? (fun a => a.personal_info.email == e) = some u := by
  rw [List.find?_append, find?_email_none e store h]
  simp [hu]

/-! ## The routes on the paths without failure -/

theorem googleAuth_fresh (env : Env) (tok : JSString) (d : DecodedUser) (store : List User)
    (hv : env.verifyIdToken tok = some d)
    (hfresh : ∀ a ∈ store, a.personal_info.email ≠ d.email)
    (hf : env.findOneError = none) (he : env.existsError = none) (hs : env.saveError = none) :
    googleAuth env { access_token := tok } store =
      { store := store ++ [googleDoc env d store],
        sent := [{ status := 200, body := Body.session (viewOf env (googleDoc env d store)) }],
        calls := [Call.verifyIdToken tok, Call.findOne (emailFilter d.email)] ++
          usernameCalls env d.email store ++
          [Call.save (googleDoc env d store), Call.jwtSign env.newId],
        unhandled := false } := by
  have hins := insert_fresh (googleDoc env d store) store hfresh
  simp only [googleAuth, googleAuthVerified, hv, hf, findOne_emailFilter, Run.call, Run.start,
    find?_email_none d.email store hfresh, generateUsername_ok env _ _ he, save, hs]
  simp only [googleDoc] at hins
  simp [hins, formatDatatoSend, Run.json, Run.call, googleDoc, viewOf]

theorem googleAuth_existing (env : Env) (tok : JSString) (d : DecodedUser) (store : List User)
    (u : User) (hv : env.verifyIdToken tok = some d) (hf : env.findOneError = none)
    (hu : store.find? (fun a => a.personal_info.email == d.email) = some u)
    (hg : u.google_auth = true) :
    googleAuth env { access_token := tok } store =
      { store := store,
        sent := [{ status := 200, body := Body.session (viewOf env u) }],
        calls := [Call.verifyIdToken tok, Call.findOne (emailFilter d.email), Call.jwtSign u._id],
        unhandled := false } := by
  simp [googleAuth, googleAuthVerified, hv, hf, findOne_emailFilter, Run.call, Run.start, hu, hg,
    formatDatatoSend, Run.json, viewOf]

theorem signup_fresh (env : Env) (body : SignupBody) (store : List User)
    (h1 : 3 ≤ body.fullname.length) (h2 : body.email.length ≠ 0)
    (h3 : emailRegex.test body.email = true) (h4 : passwordRegex.test body.password = true)
    (hfresh : ∀ a ∈ store, a.personal_info.email ≠ body.email)
    (he : env.existsError = none) (hs : env.saveError = none) :
    signup env body store =
      { store := store ++ [signupDoc env body store],
        sent := [{ status := 200, body := Body.session (viewOf env (signupDoc env body store)) }],
        calls := [Call.bcryptHash body.password] ++ usernameCalls env body.email store ++
          [Call.save (signupDoc env body store), Call.jwtSign env.newId],
        unhandled := false } := by
  have hins := insert_fresh (signupDoc env body store) store hfresh
  simp only [signup, Nat.not_lt.mpr h1, h2, h3, h4, if_false, Bool.not_true, Run.call, Run.start,
    generateUsername_ok env _ _ he, save, hs]
  simp only [signupDoc] at hins
  simp [hins, formatDatatoSend, Run.json, Run.call, signupDoc, viewOf, finish]

theorem signin_found (env : Env) (body : SigninBody) (store : List User) (u : User)
    (hf : env.findOneError = none)
    (hu : store.find? (fun a => a.personal_info.email == body.email) = some u) :
    signin env body store =
      if u.google_auth = true then
        { store := store,
          sent := [{ status := 403, body := (Body.text
            "error: Account was created using google. try logging in with google.") }],
          calls := [Call.findOne (emailFilter body.email)],
          unhandled := false }
      else
        match u.personal_info.password with
        | none =>
          { store := store,
            sent := [{ status := 403, body := Body.text "data and hash arguments required" }],
            calls := [Call.findOne (emailFilter body.email),
              Call.bcryptCompare body.password none],
            unhandled := false }
        | some h =>
          if env.bcryptCompare body.password h = true then
            { store := store,
              sent := [{ status := 200, body := Body.session (viewOf env u) }],
              calls := [Call.findOne (emailFilter body.email),
                Call.bcryptCompare body.password (some h), Call.jwtSign u._id],
              unhandled := false }
          else
            { store := store,
              sent := [{ status := 403, body := Body.text "error: invalid password" }],
              calls := [Call.findOne (emailFilter body.email),
                Call.bcryptCompare body.password (some h)],
              unhandled := false } := by
  simp only [signin, hf, findOne_emailFilter, Run.call, Run.start, hu]
  by_cases hg : u.google_auth = true
  · simp [hg, Run.json, finish]
  · simp only [hg]
    cases hp : u.personal_info.password with
    | none => simp [bcryptCompare, Run.json, finish]
    | some h =>
      by_cases hc : env.bcryptCompare body.password h = true
      · simp [bcryptCompare, hc, Run.json, finish, formatDatatoSend, Run.call, viewOf]
      · simp [bcryptCompare, hc, Run.json, finish]

/-! ## The claims -/

/-- C1: for every signup request the checks run in the order fullname, email present,
email grammar, password grammar, and the response is that of the first check that fails
(each a 403 with its message); the hasher and the store are reached exactly when all four
checks pass, and then the first call is the hash of the password. -/
theorem signup_checks_in_order (env : Env) (body : SignupBody) (store : List User) :
    (body.fullname.length < 3 →
      (signup env body store).sent =
        [{ status := 403, body := Body.text "error: fullname must be 3 letters long" }]) ∧
    (3 ≤ body.fullname.length → body.email.length = 0 →
      (signup env body store).sent =
        [{ status := 403, body := Body.text "error: email is required" }]) ∧
    (3 ≤ body.fullname.length → body.email.length ≠ 0 → emailRegex.test body.email = false →
      (signup env body store).sent =
        [{ status := 403, body := Body.text "error: invalid email" }]) ∧
    (3 ≤ body.fullname.length → body.email.length ≠ 0 → emailRegex.test body.email = true →
      passwordRegex.test body.password = false →
      (signup env body store).sent =
        [{ status := 403, body := Body.text
            "error: password should be at least 6 to 20  characters long with a numeric, 1 lower and 1 uppercase letter" }]) ∧
    ((signup env body store).calls ≠ [] →
      3 ≤ body.fullname.length ∧ body.email.length ≠ 0 ∧ emailRegex.test body.email = true ∧
        passwordRegex.test body.password = true) ∧
    (3 ≤ body.fullname.length → body.email.length ≠ 0 → emailRegex.test body.email = true →
      passwordRegex.test body.password = true →
      (signup env body store).calls.head? = some (Call.bcryptHash body.password)) := by
  refine ⟨?_, ?_, ?_, ?_, ?_, ?_⟩
  · intro h
    simp [signup, h, Run.json, Run.start, finish]
  · intro h1 h2
    simp [signup, Nat.not_lt.mpr h1, h2, Run.json, Run.start, finish]
  · intro h1 h2 h3
    simp [signup, Nat.not_lt.mpr h1, h2, h3, Run.json, Run.start, finish]
  · intro h1 h2 h3 h4
    simp [signup, Nat.not_lt.mpr h1, h2, h3, h4, Run.json, Run.start, finish]
  · intro hc
    by_cases h1 : body.fullname.length < 3
    · simp [signup, h1, Run.json, Run.start, finish] at hc
    by_cases h2 : body.email.length = 0
    · simp [signup, h1, h2, Run.json, Run.start, finish] at hc
    by_cases h3 : emailRegex.test body.email = true
    swap
    · simp [signup, h1, h2, h3, Run.json, Run.start, finish] at hc
    by_cases h4 : passwordRegex.test body.password = true
    swap
    · simp [signup, h1, h2, h3, h4, Run.json, Run.start, finish] at hc
    exact ⟨Nat.not_lt.mp h1, h2, h3, h4⟩
  · intro h1 h2 h3 h4
    simp only [signup, Nat.not_lt.mpr h1, h2, h3, h4, if_false, Bool.not_true]
    cases hex : env.existsError with
    | some msg =>
      rw [generateUsername_error env _ _ msg hex]
      simp [Run.call, Run.start]
    | none =>
      rw [generateUsername_ok env _ _ hex]
      simp only [Run.call, Run.start]
      generalize save env _ _ = sv
      rcases sv with e | ⟨u, st⟩
      · by_cases hc : e.code = some 11000 <;> simp [hc, Run.json, finish]
      · simp [formatDatatoSend, Run.json, finish, Run.call]

/-- C1 at a request with the fullname `ab`: the first check answers. -/
theorem signup_checks_in_order_witness :
    (js "ab").length < 3 ∧
      (signup sampleEnv { fullname := js "ab", email := js "", password := js "abc" } []).sent =
        [{ status := 403, body := Body.text "error: fullname must be 3 letters long" }] :=
  ⟨by decide,
   (signup_checks_in_order sampleEnv
      { fullname := js "ab", email := js "", password := js "abc" } []).1 (by decide)⟩

/-- C2 as stated fails: the seven units `Aa1`, line feed, `bcd` have a length between 6
and 20, a digit, a lowercase and an uppercase letter, and `passwordRegex.test` rejects
them, since `.` does not match a line feed. -/
theorem passwordRegex_rejects_line_feed :
    ¬ (passwordRegex.test [65, 97, 49, 10, 98, 99, 100] = true ↔
        (6 ≤ [65, 97, 49, 10, 98, 99, 100].length ∧ [65, 97, 49, 10, 98, 99, 100].length ≤ 20 ∧
          (∃ c ∈ [65, 97, 49, 10, 98, 99, 100], isDigit c = true) ∧
          (∃ c ∈ [65, 97, 49, 10, 98, 99, 100], isLower c = true) ∧
          (∃ c ∈ [65, 97, 49, 10, 98, 99, 100], isUpper c = true))) := by
  decide

/-- C4: a signup request that fails one of the four checks is answered with one 403
response, no collaborator is called (neither the hasher nor the store), and the store
is the one before the request. -/
theorem signup_invalid_no_effect (env : Env) (body : SignupBody) (store : List User)
    (h : ¬ (3 ≤ body.fullname.length ∧ body.email.length ≠ 0 ∧
      emailRegex.test body.email = true ∧ passwordRegex.test body.password = true)) :
    (∃ b, (signup env body store).sent = [{ status := 403, body := Body.text b }]) ∧
      (signup env body store).calls = [] ∧
      (signup env body store).store = store ∧
      (signup env body store).unhandled = false := by
  by_cases h1 : body.fullname.length < 3
  · simp [signup, h1, Run.json, Run.start, finish]
  by_cases h2 : body.email.length = 0
  · simp [signup, h1, h2, Run.json, Run.start, finish]
  by_cases h3 : emailRegex.test body.email = true
  swap
  · simp [signup, h1, h2, h3, Run.json, Run.start, finish]
  by_cases h4 : passwordRegex.test body.password = true
  swap
  · simp [signup, h1, h2, h3, h4, Run.json, Run.start, finish]
  exact absurd ⟨Nat.not_lt.mp h1, h2, h3, h4⟩ h

/-- C4 at the password `abc`. -/
theorem signup_invalid_no_effect_witness :
    (∃ b, (signup sampleEnv { fullname := js "Ann", email := js "a@x.com", password := js "abc" }
        [sampleAccount]).sent = [{ status := 403, body := Body.text b }]) ∧
      (signup sampleEnv { fullname := js "Ann", email := js "a@x.com", password := js "abc" }
        [sampleAccount]).calls = [] ∧
      (signup sampleEnv { fullname := js "Ann", email := js "a@x.com", password := js "abc" }
        [sampleAccount]).store = [sampleAccount] ∧
      (signup sampleEnv { fullname := js "Ann", email := js "a@x.com", password := js "abc" }
        [sampleAccount]).unhandled = false :=
  signup_invalid_no_effect sampleEnv
    { fullname := js "Ann", email := js "a@x.com", password := js "abc" } [sampleAccount]
    (by decide)

/-- C5: password signin, when the lookup answers. No account with the email: 403
`email not found`. An account that is not federated and whose stored secret does not
verify: 403 `invalid password`. One whose stored secret verifies: 200 with the token
signed over the account id and the profile_img, username and fullname of the account.
The store is never modified (whether the lookup answers or not). -/
theorem signin_password_account (env : Env) (body : SigninBody) (store : List User) :
    (env.findOneError = none →
      ((∀ a ∈ store, a.personal_info.email ≠ body.email) →
        (signin env body store).sent =
          [{ status := 403, body := Body.text "error: email not found" }]) ∧
      (∀ u h, store.find? (fun a => a.personal_info.email == body.email) = some u →
        u.google_auth = false → u.personal_info.password = some h →
        (env.bcryptCompare body.password h = false →
          (signin env body store).sent =
            [{ status := 403, body := Body.text "error: invalid password" }]) ∧
        (env.bcryptCompare body.password h = true →
          (signin env body store).sent =
            [{ status := 200, body := Body.session
                { access_token := env.jwtSign u._id,
                  profile_img := u.personal_info.profile_img,
                  username := u.personal_info.username,
                  fullname := u.personal_info.fullname } }]))) ∧
    (signin env body store).store = store := by
  constructor
  · intro hf
    constructor
    · intro hnone
      simp [signin, hf, findOne_emailFilter, Run.call, Run.start,
        find?_email_none body.email store hnone, Run.json, finish]
    · intro u h hu hg hp
      rw [signin_found env body store u hf hu]
      constructor
      · intro hc
        simp [hg, hp, hc]
      · intro hc
        simp [hg, hp, hc, viewOf]
  · cases hf : env.findOneError with
    | some msg => simp [signin, hf, Run.call, Run.start, Run.json, finish]
    | none =>
      cases hu : store.find? (fun a => a.personal_info.email == body.email) with
      | none =>
        simp [signin, hf, findOne_emailFilter, Run.call, Run.start, hu, Run.json, finish]
      | some u =>
        rw [signin_found env body store u hf hu]
        repeat' split
        all_goals rfl

/-- C5 at the stored sample account and its password. -/
theorem signin_password_account_witness :
    sampleEnv.findOneError = none ∧
      [sampleAccount].find? (fun a => a.personal_info.email == js "a@y.org") = some sampleAccount ∧
      sampleEnv.bcryptCompare (js "Aa1bcd") (36 :: js "Aa1bcd") = true ∧
      (signin sampleEnv { email := js "a@y.org", password := js "Aa1bcd" } [sampleAccount]).sent =
        [{ status := 200, body := Body.session
            { access_token := sampleEnv.jwtSign 1,
              profile_img := none,
              username := js "a",
              fullname := js "Ann Lee" } }] :=
  ⟨rfl, by decide, by decide,
   ((((signin_password_account sampleEnv { email := js "a@y.org", password := js "Aa1bcd" }
      [sampleAccount]).1 rfl).2 sampleAccount (36 :: js "Aa1bcd") (by decide) rfl rfl).2
      (by decide))⟩

/-- C6: for a stored account with `google_auth = true` (in a store whose emails are
unique, with a lookup that answers) and every password, password signin with the email of
the account answers 403 with the `created using google` message, and its only call is the
lookup: `bcrypt.compare` is not called and no token is signed. -/
theorem signin_federated_account (env : Env) (body : SigninBody) (store : List User) (u : User)
    (hf : env.findOneError = none) (hu : u ∈ store)
    (huniq : store.Pairwise (fun a b => a.personal_info.email ≠ b.personal_info.email))
    (hg : u.google_auth = true) (he : body.email = u.personal_info.email) :
    (signin env body store).sent =
        [{ status := 403, body := Body.text
            "error: Account was created using google. try logging in with google." }] ∧
      (signin env body store).calls = [Call.findOne (emailFilter body.email)] ∧
      (signin env body store).store = store := by
  have hfind : store.find? (fun a => a.personal_info.email == body.email) = some u := by
    rw [he]
    exact find?_email_unique store u hu huniq
  rw [signin_found env body store u hf hfind]
  simp [hg]

/-- C6 at a store with one password account and one federated account. -/
theorem signin_federated_account_witness :
    (signin sampleEnv { email := js "b@x.com", password := js "Aa1bcd" }
        [sampleAccount, sampleGoogleAccount]).sent =
        [{ status := 403, body := Body.text
            "error: Account was created using google. try logging in with google." }] ∧
      (signin sampleEnv { email := js "b@x.com", password := js "Aa1bcd" }
        [sampleAccount, sampleGoogleAccount]).calls =
        [Call.findOne (emailFilter (js "b@x.com"))] ∧
      (signin sampleEnv { email := js "b@x.com", password := js "Aa1bcd" }
        [sampleAccount, sampleGoogleAccount]).store = [sampleAccount, sampleGoogleAccount] :=
  signin_federated_account sampleEnv { email := js "b@x.com", password := js "Aa1bcd" }
    [sampleAccount, sampleGoogleAccount] sampleGoogleAccount rfl (by decide) (by decide) rfl
    (by decide)

/-- C7: a federated signin with a verified assertion whose email has no account, on a
store that answers and accepts the insert, adds exactly one account, with
`google_auth = true` and no password, and answers 200; a second federated signin with an
assertion for the same email then leaves the store as it is, calls no `save`, and answers
200 with a token signed over the same account id and with the same username and
fullname. -/
theorem googleAuth_twice (env1 env2 : Env) (tok1 tok2 : JSString) (d1 d2 : DecodedUser)
    (store : List User)
    (hv1 : env1.verifyIdToken tok1 = some d1) (hv2 : env2.verifyIdToken tok2 = some d2)
    (hsame : d2.email = d1.email)
    (hfresh : ∀ a ∈ store, a.personal_info.email ≠ d1.email)
    (hf1 : env1.findOneError = none) (he1 : env1.existsError = none)
    (hs1 : env1.saveError = none) (hf2 : env2.findOneError = none) :
    ∃ u : User,
      (googleAuth env1 { access_token := tok1 } store).store = store ++ [u] ∧
      u.google_auth = true ∧ u.personal_info.password = none ∧
      u.personal_info.email = d1.email ∧
      (googleAuth env1 { access_token := tok1 } store).sent =
        [{ status := 200, body := Body.session
            { access_token := env1.jwtSign u._id,
              profile_img := u.personal_info.profile_img,
              username := u.personal_info.username,
              fullname := u.personal_info.fullname } }] ∧
      (googleAuth env2 { access_token := tok2 }
        (googleAuth env1 { access_token := tok1 } store).store).store = store ++ [u] ∧
      (∀ doc, Call.save doc ∉ (googleAuth env2 { access_token := tok2 }
        (googleAuth env1 { access_token := tok1 } store).store).calls) ∧
      (googleAuth env2 { access_token := tok2 }
        (googleAuth env1 { access_token := tok1 } store).store).sent =
        [{ status := 200, body := Body.session
            { access_token := env2.jwtSign u._id,
              profile_img := u.personal_info.profile_img,
              username := u.personal_info.username,
              fullname := u.personal_info.fullname } }] := by
  have hfind : (store ++ [googleDoc env1 d1 store]).find?
      (fun a => a.personal_info.email == d2.email) = some (googleDoc env1 d1 store) := by
    rw [hsame]
    exact find?_email_append d1.email store _ hfresh rfl
  refine ⟨googleDoc env1 d1 store, ?_, rfl, rfl, rfl, ?_, ?_, ?_, ?_⟩
  · rw [googleAuth_fresh env1 tok1 d1 store hv1 hfresh hf1 he1 hs1]
  · rw [googleAuth_fresh env1 tok1 d1 store hv1 hfresh hf1 he1 hs1]
    rfl
  · rw [googleAuth_fresh env1 tok1 d1 store hv1 hfresh hf1 he1 hs1]
    rw [googleAuth_existing env2 tok2 d2 _ _ hv2 hf2 hfind rfl]
  · rw [googleAuth_fresh env1 tok1 d1 store hv1 hfresh hf1 he1 hs1]
    rw [googleAuth_existing env2 tok2 d2 _ _ hv2 hf2 hfind rfl]
    intro doc
    simp
  · rw [googleAuth_fresh env1 tok1 d1 store hv1 hfresh hf1 he1 hs1]
    rw [googleAuth_existing env2 tok2 d2 _ _ hv2 hf2 hfind rfl]
    rfl

/-- C8: for a signup request that passes the four checks, with an email that no account
has, on a store that answers, and a hasher whose comparison accepts the password against
its hash: the signup answers 200, the signin that follows with the same email and
password answers 200, and both responses carry the same username and fullname. -/
theorem signup_then_signin (env1 env2 : Env) (body : SignupBody) (store : List User)
    (h1 : 3 ≤ body.fullname.length) (h2 : body.email.length ≠ 0)
    (h3 : emailRegex.test body.email = true) (h4 : passwordRegex.test body.password = true)
    (hfresh : ∀ a ∈ store, a.personal_info.email ≠ body.email)
    (he1 : env1.existsError = none) (hs1 : env1.saveError = none)
    (hf2 : env2.findOneError = none)
    (hverify : env2.bcryptCompare body.password (env1.bcryptHash body.password) = true) :
    ∃ v1 v2 : SessionView,
      (signup env1 body store).sent = [{ status := 200, body := Body.session v1 }] ∧
      (signin env2 { email := body.email, password := body.password }
        (signup env1 body store).store).sent = [{ status := 200, body := Body.session v2 }] ∧
      v2.username = v1.username ∧ v2.fullname = v1.fullname := by
  have hfind : (store ++ [signupDoc env1 body store]).find?
      (fun a => a.personal_info.email == body.email) = some (signupDoc env1 body store) :=
    find?_email_append body.email store _ hfresh rfl
  refine ⟨viewOf env1 (signupDoc env1 body store), viewOf env2 (signupDoc env1 body store),
    ?_, ?_, rfl, rfl⟩
  · rw [signup_fresh env1 body store h1 h2 h3 h4 hfresh he1 hs1]
  · rw [signup_fresh env1 body store h1 h2 h3 h4 hfresh he1 hs1]
    rw [signin_found env2 { email := body.email, password := body.password } _ _ hf2 hfind]
    simp [signupDoc, defaultGoogleAuth, hverify]

/-- C7 at the sample token on a store that holds one other account. -/
theorem googleAuth_twice_witness :
    ∃ u : User,
      (googleAuth sampleEnv { access_token := sampleToken } [sampleAccount]).store =
        [sampleAccount] ++ [u] ∧
      u.google_auth = true ∧ u.personal_info.password = none ∧
      u.personal_info.email = sampleDecoded.email ∧
      (googleAuth sampleEnv { access_token := sampleToken } [sampleAccount]).sent =
        [{ status := 200, body := Body.session
            { access_token := sampleEnv.jwtSign u._id,
              profile_img := u.personal_info.profile_img,
              username := u.personal_info.username,
              fullname := u.personal_info.fullname } }] ∧
      (googleAuth sampleEnv { access_token := sampleToken }
        (googleAuth sampleEnv { access_token := sampleToken } [sampleAccount]).store).store =
        [sampleAccount] ++ [u] ∧
      (∀ doc, Call.save doc ∉ (googleAuth sampleEnv { access_token := sampleToken }
        (googleAuth sampleEnv { access_token := sampleToken } [sampleAccount]).store).calls) ∧
      (googleAuth sampleEnv { access_token := sampleToken }
        (googleAuth sampleEnv { access_token := sampleToken } [sampleAccount]).store).sent =
        [{ status := 200, body := Body.session
            { access_token := sampleEnv.jwtSign u._id,
              profile_img := u.personal_info.profile_img,
              username := u.personal_info.username,
              fullname := u.personal_info.fullname } }] :=
  googleAuth_twice sampleEnv sampleEnv sampleToken sampleToken sampleDecoded sampleDecoded
    [sampleAccount] (by decide) (by decide) rfl (by decide) rfl rfl rfl rfl

/-- C8 at the sample signup request on a store that holds one other account. -/
theorem signup_then_signin_witness :
    ∃ v1 v2 : SessionView,
      (signup sampleEnv sampleSignup [sampleAccount]).sent =
        [{ status := 200, body := Body.session v1 }] ∧
      (signin sampleEnv { email := sampleSignup.email, password := sampleSignup.password }
        (signup sampleEnv sampleSignup [sampleAccount]).store).sent =
        [{ status := 200, body := Body.session v2 }] ∧
      v2.username = v1.username ∧ v2.fullname = v1.fullname :=
  signup_then_signin sampleEnv sampleEnv sampleSignup [sampleAccount] (by decide) (by decide)
    (by decide) (by decide) (by decide) rfl rfl rfl (by decide)

/-- C3 on the code: the query of `generateUsername` is on the path
`personnal_info.username`, under which no document stores anything. With an account of
username `a` in the store, the email `a@x.com` gets the username `a` again, without
suffix. With `strictQuery` on, the condition is dropped instead, and the email `c@x.com`
gets a suffix although no account has the username `c`. -/
theorem generateUsername_ignores_stored_username :
    sampleAccount.personal_info.username = js "a" ∧
      (generateUsername sampleEnv (js "a@x.com") (Run.start [sampleAccount])).toOption.map
        Prod.fst = some (js "a") ∧
      (generateUsername sampleStrictEnv (js "c@x.com") (Run.start [sampleAccount])).toOption.map
        Prod.fst = some (js "cV1StG") := by
  decide

/-- C9 on the code: a valid signup whose `save` fails with an error other than the
duplicate key error gets no response at all, while the duplicate key error gets the 500
`email already exists`. -/
theorem signup_save_failure_unanswered :
    (signup sampleSaveFailsEnv sampleSignup [sampleAccount]).sent = [] ∧
      (signup sampleSaveFailsEnv sampleSignup [sampleAccount]).unhandled = false ∧
      (signup sampleEnv { fullname := js "Ann", email := js "a@y.org", password := js "Aa1bcd" }
        [sampleAccount]).sent =
        [{ status := 500, body := Body.text "error: email already exists" }] := by
  decide

/-- C10 on the code: when the insert of the new account fails, `/google-auth` writes the
500 and then goes on to sign a token over the id of the account that was not stored; the
200 that carries it cannot be written any more. When the lookup fails, the 500 is the
only response and no token is signed. -/
theorem googleAuth_save_failure_signs_token :
    (googleAuth sampleSaveFailsEnv { access_token := sampleToken } [sampleAccount]).sent =
        [{ status := 500, body := Body.text "connection lost" }] ∧
      Call.jwtSign 7 ∈
        (googleAuth sampleSaveFailsEnv { access_token := sampleToken } [sampleAccount]).calls ∧
      (googleAuth sampleSaveFailsEnv { access_token := sampleToken } [sampleAccount]).store =
        [sampleAccount] ∧
      (googleAuth sampleSaveFailsEnv { access_token := sampleToken } [sampleAccount]).unhandled =
        true ∧
      (googleAuth sampleFindFailsEnv { access_token := sampleToken } [sampleAccount]).sent =
        [{ status := 500, body := Body.text "connection lost" }] ∧
      (googleAuth sampleFindFailsEnv { access_token := sampleToken } [sampleAccount]).calls =
        [Call.verifyIdToken sampleToken, Call.findOne (emailFilter (js "a@x.com"))] := by
  decide

end Server
